import Mathlib

/-!
Verification of the BioMech Analyzer video-annotation application.

The development shallowly embeds the application state and the handlers of
the App component (src: Sidebar.tsx, App section) together with the parts of
the VideoPlayer component the claims refer to (overlay rendering of drawings
and annotation markers).  JavaScript numbers are modelled as rationals,
strings as Lean strings, binary blobs as lists of byte values, and the zip
archive as an association list of named entries whose textual members carry a
JSON tree (the external archive codec and JSON text layer are trusted to
round-trip text, matching the spec treatment of the codec as an external
collaborator).  React state updates issued sequentially by one handler are
modelled by a single record update that applies them in order, so the last
write to a field wins, exactly as in the committed React state.
-/

namespace BioMech

/-- A point of a freehand stroke in normalized frame coordinates; the
optional JS field isStart is modelled with default false (undefined is
falsy in every use the code makes of it). -/
structure Point where
  x : ℚ
  y : ℚ
  isStart : Bool := false
deriving DecidableEq

/-- A freehand stroke anchored to a single timestamp. -/
structure Drawing where
  id : String
  time : ℚ
  color : String
  size : ℚ
  path : List Point
deriving DecidableEq

/-- A labeled marker at a frame position and timestamp. -/
structure Annotation where
  id : String
  x : ℚ
  y : ℚ
  time : ℚ
  text : String
  color : String
deriving DecidableEq

/-- A named sub-interval of the video with playback speed and zoom focus. -/
structure Clip where
  id : String
  name : String
  startTime : ℚ
  endTime : ℚ
  duration : ℚ
  speed : ℚ
  x : ℚ
  y : ℚ
deriving DecidableEq

/-- The exportable snapshot, the unit of archive serialization. -/
structure AnalysisData where
  notes : String
  drawings : List Drawing
  annotations : List Annotation
  clips : List Clip
  primaryVideoFileName : Option String
deriving DecidableEq

/-- A file as handed around by the browser: a name and its bytes. -/
structure VFile where
  name : String
  bytes : List Nat
deriving DecidableEq

/-- The one-shot auto-stop timer armed by playClip (clipTimeoutRef plus the
wall-clock duration it was armed with; tagged with the clip it was armed
for so statements can speak about whose stop logic is pending). -/
structure ClipTimer where
  forClip : String
  durationMs : ℚ
deriving DecidableEq

/-- The capture tool mode. -/
inductive ToolMode where
  | point
  | pen
deriving DecidableEq

/-- The App component state: every useState hook plus the timeout ref. -/
structure AppState where
  videoSrc : Option (List Nat)
  videoFileName : Option String
  videoFile : Option VFile
  isPlaying : Bool
  currentTime : ℚ
  duration : ℚ
  playbackRate : ℚ
  toolMode : ToolMode
  brushColor : String
  brushSize : ℚ
  notes : String
  drawings : List Drawing
  annotations : List Annotation
  clips : List Clip
  activeClipId : Option String
  pendingTimer : Option ClipTimer
  seekTimestamp : Option ℚ
deriving DecidableEq

/-- The initial state of the App component, from the useState initializers. -/
def initialState : AppState where
  videoSrc := none
  videoFileName := none
  videoFile := none
  isPlaying := false
  currentTime := 0
  duration := 0
  playbackRate := 1
  toolMode := ToolMode.point
  brushColor := "#ff0000"
  brushSize := 5
  notes := ""
  drawings := []
  annotations := []
  clips := []
  activeClipId := none
  pendingTimer := none
  seekTimestamp := none

/-- JSON trees, the image of JSON.parse on well-formed text. -/
inductive Json where
  | str (s : String)
  | num (q : ℚ)
  | bool (b : Bool)
  | null
  | arr (xs : List Json)
  | obj (fields : List (String × Json))

/-- Field lookup on a JSON object, first binding wins. -/
def jField (fields : List (String × Json)) (key : String) : Option Json :=
  (fields.find? (fun p => p.1 == key)).map (fun p => p.2)

/-- JSON.stringify of a stroke point. -/
def encodePoint (p : Point) : Json :=
  Json.obj [("x", Json.num p.x), ("y", Json.num p.y), ("isStart", Json.bool p.isStart)]

/-- JSON.stringify of a drawing. -/
def encodeDrawing (d : Drawing) : Json :=
  Json.obj [("id", Json.str d.id), ("time", Json.num d.time), ("color", Json.str d.color),
    ("size", Json.num d.size), ("path", Json.arr (d.path.map encodePoint))]

/-- JSON.stringify of an annotation. -/
def encodeAnnotation (a : Annotation) : Json :=
  Json.obj [("id", Json.str a.id), ("x", Json.num a.x), ("y", Json.num a.y),
    ("time", Json.num a.time), ("text", Json.str a.text), ("color", Json.str a.color)]

/-- JSON.stringify of a clip. -/
def encodeClip (c : Clip) : Json :=
  Json.obj [("id", Json.str c.id), ("name", Json.str c.name),
    ("startTime", Json.num c.startTime), ("endTime", Json.num c.endTime),
    ("duration", Json.num c.duration), ("speed", Json.num c.speed),
    ("x", Json.num c.x), ("y", Json.num c.y)]

/-- JSON.stringify of an AnalysisData value, field order as in saveAnalysis. -/
def encodeAnalysisData (d : AnalysisData) : Json :=
  Json.obj ([("notes", Json.str d.notes),
    ("drawings", Json.arr (d.drawings.map encodeDrawing)),
    ("annotations", Json.arr (d.annotations.map encodeAnnotation)),
    ("clips", Json.arr (d.clips.map encodeClip))] ++
    (match d.primaryVideoFileName with
     | some n => [("primaryVideoFileName", Json.str n)]
     | none => []))

/-- Reading the isStart field the way the renderer consumes it: any value
other than the boolean true is falsy there. -/
def decodeIsStart : Option Json → Bool
  | some (Json.bool b) => b
  | _ => false

/-- Reading a point back from JSON. -/
def decodePoint : Json → Option Point
  | Json.obj fs =>
    match jField fs "x", jField fs "y" with
    | some (Json.num x), some (Json.num y) =>
      some { x := x, y := y, isStart := decodeIsStart (jField fs "isStart") }
    | _, _ => none
  | _ => none

/-- Reading a drawing back from JSON. -/
def decodeDrawing : Json → Option Drawing
  | Json.obj fs =>
    match jField fs "id", jField fs "time", jField fs "color",
        jField fs "size", jField fs "path" with
    | some (Json.str i), some (Json.num t), some (Json.str c),
        some (Json.num sz), some (Json.arr ps) =>
      match ps.mapM decodePoint with
      | some ps2 => some { id := i, time := t, color := c, size := sz, path := ps2 }
      | none => none
    | _, _, _, _, _ => none
  | _ => none

/-- Reading an annotation back from JSON. -/
def decodeAnnotation : Json → Option Annotation
  | Json.obj fs =>
    match jField fs "id", jField fs "x", jField fs "y",
        jField fs "time", jField fs "text", jField fs "color" with
    | some (Json.str i), some (Json.num x), some (Json.num y),
        some (Json.num t), some (Json.str tx), some (Json.str c) =>
      some { id := i, x := x, y := y, time := t, text := tx, color := c }
    | _, _, _, _, _, _ => none
  | _ => none

/-- Reading a clip back from JSON. -/
def decodeClip : Json → Option Clip
  | Json.obj fs =>
    match jField fs "id", jField fs "name", jField fs "startTime",
        jField fs "endTime", jField fs "duration", jField fs "speed",
        jField fs "x", jField fs "y" with
    | some (Json.str i), some (Json.str n), some (Json.num st),
        some (Json.num et), some (Json.num du), some (Json.num sp),
        some (Json.num x), some (Json.num y) =>
      some { id := i, name := n, startTime := st, endTime := et,
             duration := du, speed := sp, x := x, y := y }
    | _, _, _, _, _, _, _, _ => none
  | _ => none

/-- Reading the optional video file name the way the code consumes it. -/
def decodeOptStr : Option Json → Option String
  | some (Json.str s) => some s
  | _ => none

/-- Reading an AnalysisData value back from JSON.  The source performs an
unchecked cast; the Option models the shape the code goes on to rely on. -/
def decodeAnalysisData : Json → Option AnalysisData
  | Json.obj fs =>
    match jField fs "notes", jField fs "drawings",
        jField fs "annotations", jField fs "clips" with
    | some (Json.str n), some (Json.arr ds), some (Json.arr as), some (Json.arr cs) =>
      match ds.mapM decodeDrawing, as.mapM decodeAnnotation, cs.mapM decodeClip with
      | some ds2, some as2, some cs2 =>
        some { notes := n, drawings := ds2, annotations := as2, clips := cs2,
               primaryVideoFileName := decodeOptStr (jField fs "primaryVideoFileName") }
      | _, _, _ => none
    | _, _, _, _ => none
  | _ => none

/-- Content of one zip entry: a text member whose content parses as JSON, a
text member that is not valid JSON (JSON.parse throws on it), or a binary
member. -/
inductive ZContent where
  | json (j : Json)
  | badJson
  | bin (bs : List Nat)

/-- A zip archive: named entries, names unique (JSZip keys files by name). -/
abbrev Zip : Type := List (String × ZContent)

/-- JSZip zip.file(name, content): replaces an entry of the same name,
otherwise appends. -/
def zipAdd (z : Zip) (name : String) (c : ZContent) : Zip :=
  if (List.any z (fun e => e.1 == name)) then
    List.map (fun e => if e.1 == name then (name, c) else e) z
  else z ++ [(name, c)]

/-- JSZip zip.file(name): look up an entry by exact name. -/
def zipFind (z : Zip) (name : String) : Option ZContent :=
  (List.find? (fun e => e.1 == name) z).map (fun e => e.2)

/-- Bytes produced when a zip entry is read as a blob.  Binary entries yield
their stored bytes.  The byte encoding of a textual entry is not modelled
(no theorem depends on it), so those blobs are left empty. -/
def contentBlobBytes : ZContent → List Nat
  | ZContent.bin bs => bs
  | _ => []

/-- Name of the structured-data entry of the archive. -/
def analysisEntryName : String := "analysis_data.json"

/-- Alert shown when loading the archive throws (malformed JSON). -/
def failAlert : String := "Failed to load analysis file."

/-- Alert shown when the referenced video entry is missing. -/
def missingVideoAlert : String :=
  "Analysis loaded, but the video file was missing in the archive."

/-- The JS expression videoFileName or the default video.mp4 (null and the
empty string are falsy). -/
def orDefaultName : Option String → String
  | none => "video.mp4"
  | some s => if s = "" then "video.mp4" else s

/-- loadVideoFile: install the file as the current video and reset the
analysis collections, exactly as the source does. -/
def loadVideoFile (s : AppState) (f : VFile) : AppState :=
  { s with videoSrc := some f.bytes, videoFileName := some f.name,
           videoFile := some f,
           drawings := [], annotations := [], clips := [], notes := "" }

/-- saveAnalysis: none when no video file is loaded (the guard returns),
otherwise the produced archive with the JSON entry and the video entry. -/
def saveAnalysis (s : AppState) : Option Zip :=
  match s.videoFile with
  | none => none
  | some f =>
    let name := orDefaultName s.videoFileName
    let data : AnalysisData :=
      { notes := s.notes, drawings := s.drawings, annotations := s.annotations,
        clips := s.clips, primaryVideoFileName := some name }
    some (zipAdd (zipAdd [] analysisEntryName (ZContent.json (encodeAnalysisData data)))
          name (ZContent.bin f.bytes))

/-- handleZipUpload on an already-selected file: returns the final committed
state together with the list of alerts shown.  The branches follow the
source: a missing JSON entry falls through the if silently; a JSON.parse
failure is caught and alerts; otherwise the data is applied, and the video
entry, when named and present, is loaded through loadVideoFile (which resets
the collections), while a named but absent entry alerts distinctly. -/
def handleZipUpload (s : AppState) (z : Zip) : AppState × List String :=
  match zipFind z analysisEntryName with
  | none => (s, [])
  | some (ZContent.json j) =>
    match decodeAnalysisData j with
    | none => (s, [])
    | some data =>
      let s1 : AppState :=
        { s with notes := data.notes, drawings := data.drawings,
                 annotations := data.annotations, clips := data.clips }
      match data.primaryVideoFileName with
      | none => (s1, [])
      | some name =>
        if name = "" then (s1, [])
        else
          match zipFind z name with
          | none => (s1, [missingVideoAlert])
          | some c =>
            (loadVideoFile s1 { name := name, bytes := contentBlobBytes c }, [])
  | some _ => (s, [failAlert])

/-- Math.abs on exact values. -/
def jsAbs (q : ℚ) : ℚ := if q < 0 then -q else q

/-- Math.min on exact values. -/
def jsMin (a b : ℚ) : ℚ := if a ≤ b then a else b

/-- JS Number.prototype.toFixed(2) followed by parseFloat, on exact values:
round to the nearest multiple of one hundredth, ties upward, which is the
floor of the scaled value plus one half. -/
def toFixed2 (q : ℚ) : ℚ := ((⌊q * 100 + 1/2⌋ : ℤ) : ℚ) / 100

/-- handleAddAnnotation: the point-mode capture handler.  The prompt result
is passed in (none models a dismissed prompt); a falsy label aborts the
interaction.  Otherwise one annotation and one companion clip are appended,
with the id produced by the timestamp source passed in as newId.  The second
component lists the alerts shown (this handler never shows one). -/
def handleAddAnnotation (s : AppState) (x y time : ℚ) (label : Option String)
    (newId : String) : AppState × List String :=
  match label with
  | none => (s, [])
  | some text =>
    if text = "" then (s, [])
    else
      let clipStart := time
      let clipEnd := jsMin (time + 2) s.duration
      ({ s with
          annotations := s.annotations ++
            [{ id := newId, x := x, y := y, time := time, text := text,
               color := s.brushColor }],
          clips := s.clips ++
            [{ id := newId, name := text, startTime := clipStart,
               endTime := clipEnd, duration := toFixed2 (clipEnd - clipStart),
               speed := 1/2, x := x, y := y }] }, [])

/-- The observable side effects a clip-machine handler performs, in program
order: cancelling the pending timeout, writing the active-clip reference,
setting the playback rate, requesting a seek, starting or pausing playback,
arming the auto-stop timeout, and removing a clip from the collection. -/
inductive UIAction where
  | cancelTimer
  | setActive (id : String)
  | clearActive
  | setRate (r : ℚ)
  | seek (t : ℚ)
  | play
  | pause
  | armTimer (forClip : String) (ms : ℚ)
  | removeClip (id : String)
deriving DecidableEq

/-- playClip: cancel any pending timeout first, then enter the Active state
for the given clip and arm its auto-stop for the time-dilated duration in
milliseconds.  Returns the new state and the emitted actions in program
order. -/
def playClip (s : AppState) (clip : Clip) : AppState × List UIAction :=
  let cancel := if s.pendingTimer.isSome then [UIAction.cancelTimer] else []
  let durationMs := ((clip.endTime - clip.startTime) / clip.speed) * 1000
  ({ s with pendingTimer := some { forClip := clip.id, durationMs := durationMs },
            activeClipId := some clip.id,
            playbackRate := clip.speed,
            seekTimestamp := some clip.startTime,
            isPlaying := true },
   cancel ++ [UIAction.setActive clip.id, UIAction.setRate clip.speed,
     UIAction.seek clip.startTime, UIAction.play,
     UIAction.armTimer clip.id durationMs])

/-- stopClip: cancel any pending timeout, clear the active-clip reference,
pause playback and reset the playback rate to 1. -/
def stopClip (s : AppState) : AppState × List UIAction :=
  let cancel := if s.pendingTimer.isSome then [UIAction.cancelTimer] else []
  ({ s with pendingTimer := none, activeClipId := none, isPlaying := false,
            playbackRate := 1 },
   cancel ++ [UIAction.clearActive, UIAction.pause, UIAction.setRate 1])

/-- onDeleteClip: stop the clip first when it is the active one, then filter
it out of the collection. -/
def deleteClip (s : AppState) (id : String) : AppState × List UIAction :=
  let r1 := if s.activeClipId = some id then stopClip s else (s, [])
  ({ r1.1 with clips := r1.1.clips.filter (fun c => c.id != id) },
   r1.2 ++ [UIAction.removeClip id])

/-- The active clip derived in App: clips.find on the active id. -/
def activeClip (s : AppState) : Option Clip :=
  s.clips.find? (fun c => some c.id == s.activeClipId)

/-- The scale applied to the video surface: 2 while a clip is active, else
identity. -/
def transformScale (s : AppState) : ℚ :=
  if (activeClip s).isSome then 2 else 1

/-- onVideoTimeUpdate as wired in App: record the reported playback time and
duration. -/
def onVideoTimeUpdate (s : AppState) (curr dur : ℚ) : AppState :=
  { s with currentTime := curr, duration := dur }

/-- The annotation markers the overlay renders at playback time t: the
source returns null exactly when the time distance exceeds 0.5. -/
def renderedAnnotations (anns : List Annotation) (t : ℚ) : List Annotation :=
  anns.filter (fun a => !(decide (jsAbs (a.time - t) > 1/2)))

/-- One pass of the renderCanvas path walk: the segments actually stroked,
threading the previous pen position; no segment is emitted for the first
point or for a point flagged isStart (those only move the pen). -/
def segmentsAux : Option Point → List Point → List (Point × Point)
  | _, [] => []
  | none, p :: rest => segmentsAux (some p) rest
  | some q, p :: rest =>
    if p.isStart then segmentsAux (some p) rest
    else (q, p) :: segmentsAux (some p) rest

/-- The connecting segments renderCanvas strokes for one drawing path, in
normalized coordinates (the pixel mapping scales both endpoints alike). -/
def strokeSegments (path : List Point) : List (Point × Point) :=
  segmentsAux none path

/-- The drawings renderCanvas paints at playback time t, each with its
stroked segments: exactly those within the strict 0.5 tolerance window. -/
def renderedDrawings (ds : List Drawing) (t : ℚ) :
    List (Drawing × List (Point × Point)) :=
  (ds.filter (fun d => decide (jsAbs (d.time - t) < 1/2))).map
    (fun d => (d, strokeSegments d.path))

/-- A concrete drawing used to evaluate the theorems. -/
def sampleDrawing : Drawing :=
  { id := "2", time := 3, color := "#ff0000", size := 5,
    path := [{ x := 1/10, y := 1/10, isStart := true }, { x := 2/10, y := 2/10 }] }

/-- A concrete annotation used to evaluate the theorems. -/
def sampleAnn : Annotation :=
  { id := "1", x := 1/4, y := 1/2, time := 3, text := "Knee", color := "#ff0000" }

/-- A concrete clip used to evaluate the theorems. -/
def sampleClip : Clip :=
  { id := "1", name := "Knee", startTime := 3, endTime := 5, duration := 2,
    speed := 1/2, x := 1/4, y := 1/2 }

/-- A concrete populated application state with a loaded video. -/
def sampleState : AppState :=
  { initialState with
    notes := "left knee collapses",
    annotations := [sampleAnn], clips := [sampleClip], drawings := [sampleDrawing],
    duration := 10, videoFileName := some "v.mp4",
    videoFile := some { name := "v.mp4", bytes := [7, 8, 9] },
    videoSrc := some [7, 8, 9] }

/-- An annotation sitting exactly at the tolerance boundary. -/
def annBoundary : Annotation :=
  { id := "a1", x := 0, y := 0, time := 1/2, text := "L", color := "#ff0000" }

/-- A concrete clip A used to evaluate the clip machine theorems. -/
def clipA : Clip :=
  { id := "a", name := "A", startTime := 2, endTime := 4, duration := 2,
    speed := 1/2, x := 0, y := 0 }

/-- A concrete clip B used to evaluate the clip machine theorems. -/
def clipB : Clip :=
  { id := "b", name := "B", startTime := 0, endTime := 2, duration := 2,
    speed := 1/2, x := 0, y := 0 }

/-- A state in which clip B is active with its auto-stop pending. -/
def playState : AppState :=
  { initialState with
    clips := [clipA, clipB], activeClipId := some "b",
    pendingTimer := some { forClip := "b", durationMs := 4000 },
    playbackRate := 1/2, isPlaying := true }

/-- A state in which clip A is active with its auto-stop pending. -/
def activeState : AppState :=
  { initialState with
    clips := [clipA, clipB], activeClipId := some "a",
    pendingTimer := some { forClip := "a", durationMs := 4000 },
    playbackRate := 1/2, isPlaying := true }

/-- An archive that lacks the structured-data entry. -/
def zipNoJson : Zip := [("other.bin", ZContent.bin [1, 2])]

/-- An archive whose structured-data entry is not valid JSON. -/
def zipBadJson : Zip := [(analysisEntryName, ZContent.badJson)]

/-- A snapshot that references a video entry. -/
def c7Data : AnalysisData :=
  { notes := "n", drawings := [], annotations := [sampleAnn], clips := [sampleClip],
    primaryVideoFileName := some "v.mp4" }

/-- An archive whose JSON names a video entry that is absent. -/
def zipMissingVideo : Zip :=
  [(analysisEntryName, ZContent.json (encodeAnalysisData c7Data))]

/-- A fresh state whose video has a 10-second duration. -/
def captureState : AppState := { initialState with duration := 10 }

/-- Every segment the path walk strokes ends at a point that is not flagged
isStart: flagged points only ever begin a new sub-path. -/
theorem segmentsAux_all_not_isStart (path : List Point) :
    ∀ prev, ((segmentsAux prev path).all (fun s => !s.2.isStart)) = true := by
  induction path with
  | nil => intro prev; cases prev <;> simp [segmentsAux]
  | cons p rest ih =>
    intro prev
    cases prev with
    | none => simpa [segmentsAux] using ih (some p)
    | some q =>
      by_cases hp : p.isStart = true
      · simpa [segmentsAux, hp] using ih (some p)
      · have hpf : p.isStart = false := by
          cases hb : p.isStart
          · rfl
          · exact absurd hb hp
        simpa [segmentsAux, hpf] using ih (some p)

/-- Claim C1, evaluated at a failing input: exporting a populated state and
re-importing the produced archive ends with empty notes and empty
collections — loadVideoFile resets the analysis data after the imported
data was applied — while the video bytes do survive byte-for-byte and no
failure notice is shown.  This contradicts the claimed round-trip, so the
claim indicts the code. -/
theorem export_import_wipes_analysis :
    (saveAnalysis sampleState).isSome = true ∧
    (handleZipUpload sampleState ((saveAnalysis sampleState).getD [])).1.notes = "" ∧
    (handleZipUpload sampleState ((saveAnalysis sampleState).getD [])).1.annotations = [] ∧
    (handleZipUpload sampleState ((saveAnalysis sampleState).getD [])).1.clips = [] ∧
    (handleZipUpload sampleState ((saveAnalysis sampleState).getD [])).1.drawings = [] ∧
    (handleZipUpload sampleState ((saveAnalysis sampleState).getD [])).1.videoFile =
      some { name := "v.mp4", bytes := [7, 8, 9] } ∧
    (handleZipUpload sampleState ((saveAnalysis sampleState).getD [])).2 = [] ∧
    sampleState.notes ≠ "" ∧ sampleState.annotations ≠ [] ∧
    sampleState.clips ≠ [] ∧ sampleState.drawings ≠ [] := by
  decide

/-- Claim C2: a point-mode capture at position (x, y) and time T that is
given a non-empty label appends exactly one annotation and exactly one
companion clip, sharing the same id, with startTime T, endTime
min (T + 2) duration, speed one half, and the zoom focus of the clip equal
to the position of the annotation. -/
theorem point_capture_appends_annotation_and_clip (s : AppState)
    (x y time : ℚ) (text newId : String) (h : text ≠ "") :
    let r := handleAddAnnotation s x y time (some text) newId
    let a : Annotation :=
      { id := newId, x := x, y := y, time := time,
        text := text, color := s.brushColor }
    let c : Clip :=
      { id := newId, name := text, startTime := time,
        endTime := jsMin (time + 2) s.duration,
        duration := toFixed2 (jsMin (time + 2) s.duration - time),
        speed := 1/2, x := x, y := y }
    r.1.annotations = s.annotations ++ [a] ∧
    r.1.clips = s.clips ++ [c] ∧
    c.id = a.id ∧ c.startTime = time ∧ c.endTime = jsMin (time + 2) s.duration ∧
    c.speed = 1/2 ∧ c.x = a.x ∧ c.y = a.y := by
  simp [ handleAddAnnotation, h]

/-- Claim C2 witness: evaluation at a concrete capture. -/
theorem point_capture_appends_annotation_and_clip_witness :
    ("Knee" ≠ "") ∧
    (let r := handleAddAnnotation sampleState (1/4) (1/2) 3 (some "Knee") "9"
     let a : Annotation :=
       { id := "9", x := 1/4, y := 1/2, time := 3,
         text := "Knee", color := sampleState.brushColor }
     let c : Clip :=
       { id := "9", name := "Knee", startTime := 3,
         endTime := jsMin (3 + 2) sampleState.duration,
         duration := toFixed2 (jsMin (3 + 2) sampleState.duration - 3),
         speed := 1/2, x := 1/4, y := 1/2 }
     r.1.annotations = sampleState.annotations ++ [a] ∧
     r.1.clips = sampleState.clips ++ [c] ∧
     c.id = a.id ∧ c.startTime = 3 ∧ c.endTime = jsMin (3 + 2) sampleState.duration ∧
     c.speed = 1/2 ∧ c.x = a.x ∧ c.y = a.y) :=
  ⟨by decide, point_capture_appends_annotation_and_clip sampleState (1/4) (1/2) 3
    "Knee" "9" (by decide)⟩

/-- Claim C3 counterexample: an annotation whose time distance from the
playhead is exactly one half is rendered by the overlay, yet the strict
inequality of the claim fails there, so the claimed equivalence is false. -/
theorem annotation_marker_boundary_rendered :
    renderedAnnotations [annBoundary] 0 = [annBoundary] ∧
    ¬(jsAbs (annBoundary.time - 0) < 1/2) := by
  refine ⟨?_, ?_⟩
  · norm_num [renderedAnnotations, annBoundary, jsAbs]
  · norm_num [annBoundary, jsAbs]

/-- Claim C3 as amended: a marker is rendered exactly when the time distance
is at most one half; the source hides the marker only when the distance
strictly exceeds the 0.5 tolerance. -/
theorem annotation_marker_rendered_iff (anns : List Annotation)
    (a : Annotation) (t : ℚ) (h : a ∈ anns) :
    a ∈ renderedAnnotations anns t ↔ jsAbs (a.time - t) ≤ 1/2 := by
  simp [renderedAnnotations, List.mem_filter, h, not_lt]

/-- Claim C3 witness: the amended equivalence at the boundary annotation. -/
theorem annotation_marker_rendered_iff_witness :
    (annBoundary ∈ [annBoundary]) ∧
    (annBoundary ∈ renderedAnnotations [annBoundary] 0 ↔
      jsAbs (annBoundary.time - 0) ≤ 1/2) :=
  ⟨by simp, annotation_marker_rendered_iff [annBoundary] annBoundary 0 (by simp)⟩

/-- Claim C4: a drawing is painted, together with the stroked segments of
its path, exactly when its time distance from the playhead is strictly
below one half; and the painted segments restart a sub-path at every point
flagged isStart, in that no stroked segment ends at a flagged point. -/
theorem drawing_rendered_iff (ds : List Drawing) (d : Drawing) (t : ℚ)
    (h : d ∈ ds) :
    ((d, strokeSegments d.path) ∈ renderedDrawings ds t ↔
      jsAbs (d.time - t) < 1/2) ∧
    ((strokeSegments d.path).all (fun s => !s.2.isStart)) = true := by
  refine ⟨⟨?_, ?_⟩, segmentsAux_all_not_isStart d.path none⟩
  · intro hm
    simp only [renderedDrawings, List.mem_map, List.mem_filter,
      decide_eq_true_eq] at hm
    obtain ⟨d2, ⟨_, hlt⟩, heq⟩ := hm
    have hd : d2 = d := congrArg Prod.fst heq
    rwa [hd] at hlt
  · intro hlt
    simp only [renderedDrawings, List.mem_map, List.mem_filter,
      decide_eq_true_eq]
    exact ⟨d, ⟨h, hlt⟩, rfl⟩

/-- Claim C4 witness: evaluation at a concrete drawing and playback time. -/
theorem drawing_rendered_iff_witness :
    (sampleDrawing ∈ [sampleDrawing]) ∧
    (((sampleDrawing, strokeSegments sampleDrawing.path) ∈
        renderedDrawings [sampleDrawing] 3 ↔ jsAbs (sampleDrawing.time - 3) < 1/2) ∧
     ((strokeSegments sampleDrawing.path).all (fun s => !s.2.isStart)) = true) :=
  ⟨by simp, drawing_rendered_iff [sampleDrawing] sampleDrawing 3 (by simp)⟩

/-- Claim C5: starting clip A while clip B is active with a pending
auto-stop first cancels that pending timeout — the cancel action precedes
every action that enters the new active state — then records A as the only
active clip and arms A's auto-stop, whose wall-clock duration in seconds is
(endTime - startTime) / speed. -/
theorem playClip_preempts_pending (s : AppState) (A B : Clip)
    (tb : ClipTimer) (_hB : s.activeClipId = some B.id)
    (ht : s.pendingTimer = some tb) :
    let r := playClip s A
    r.1.activeClipId = some A.id ∧
    r.1.pendingTimer = some { forClip := A.id,
                              durationMs := ((A.endTime - A.startTime) / A.speed) * 1000 } ∧
    (((A.endTime - A.startTime) / A.speed) * 1000) / 1000 =
      (A.endTime - A.startTime) / A.speed ∧
    r.2 = [UIAction.cancelTimer, UIAction.setActive A.id,
      UIAction.setRate A.speed, UIAction.seek A.startTime, UIAction.play,
      UIAction.armTimer A.id (((A.endTime - A.startTime) / A.speed) * 1000)] := by
  refine ⟨by simp [playClip], by simp [playClip], ?_, by simp [playClip, ht]⟩
  rw [mul_div_assoc]
  norm_num

/-- Claim C5 witness: evaluation with clip B active and its timer pending. -/
theorem playClip_preempts_pending_witness :
    (playState.activeClipId = some clipB.id ∧
     playState.pendingTimer = some { forClip := "b", durationMs := 4000 }) ∧
    (let r := playClip playState clipA
     r.1.activeClipId = some clipA.id ∧
     r.1.pendingTimer = some { forClip := clipA.id,
                               durationMs := ((clipA.endTime - clipA.startTime) / clipA.speed) * 1000 } ∧
     (((clipA.endTime - clipA.startTime) / clipA.speed) * 1000) / 1000 =
       (clipA.endTime - clipA.startTime) / clipA.speed ∧
     r.2 = [UIAction.cancelTimer, UIAction.setActive clipA.id,
       UIAction.setRate clipA.speed, UIAction.seek clipA.startTime, UIAction.play,
       UIAction.armTimer clipA.id
         (((clipA.endTime - clipA.startTime) / clipA.speed) * 1000)]) :=
  ⟨⟨rfl, rfl⟩, playClip_preempts_pending playState clipA clipB
    { forClip := "b", durationMs := 4000 } rfl rfl⟩

/-- Claim C6: deleting the currently active clip performs the full
active-to-idle transition — pending timer cancelled, active reference
cleared, derived active clip gone so the zoom scale reverts to identity,
playback paused, rate reset to 1 — and the removal of the clip from the
collection is emitted after the complete stop sequence. -/
theorem delete_active_clip_stops_first (s : AppState) (id : String)
    (h : s.activeClipId = some id) :
    let r := deleteClip s id
    r.1.activeClipId = none ∧ r.1.pendingTimer = none ∧
    r.1.isPlaying = false ∧ r.1.playbackRate = 1 ∧
    activeClip r.1 = none ∧ transformScale r.1 = 1 ∧
    r.1.clips = s.clips.filter (fun c => c.id != id) ∧
    r.2 = (stopClip s).2 ++ [UIAction.removeClip id] := by
  have hfind : ∀ (l : List Clip),
      List.find? (fun c => some c.id == (none : Option String)) l = none := by
    intro l
    induction l with
    | nil => rfl
    | cons a as ih => simp [List.find?, ih]
  refine ⟨by simp [deleteClip, stopClip, h], by simp [deleteClip, stopClip, h],
    by simp [deleteClip, stopClip, h], by simp [deleteClip, stopClip, h],
    ?_, ?_, by simp [deleteClip, stopClip, h], by simp [deleteClip, stopClip, h]⟩
  · show activeClip (deleteClip s id).1 = none
    simp [activeClip, deleteClip, stopClip, h, hfind]
  · show transformScale (deleteClip s id).1 = 1
    simp [transformScale, activeClip, deleteClip, stopClip, h, hfind]

/-- Claim C6 witness: evaluation with clip A active and its timer pending. -/
theorem delete_active_clip_stops_first_witness :
    (activeState.activeClipId = some "a") ∧
    (let r := deleteClip activeState "a"
     r.1.activeClipId = none ∧ r.1.pendingTimer = none ∧
     r.1.isPlaying = false ∧ r.1.playbackRate = 1 ∧
     activeClip r.1 = none ∧ transformScale r.1 = 1 ∧
     r.1.clips = activeState.clips.filter (fun c => c.id != "a") ∧
     r.2 = (stopClip activeState).2 ++ [UIAction.removeClip "a"]) :=
  ⟨rfl, delete_active_clip_stops_first activeState "a" rfl⟩

/-- Claim C7 counterexample: an archive with no structured-data entry — a
structural error — is loaded with no failure notice at all (and with the
store untouched), although the claim requires a user-visible failure notice
for a missing JSON entry. -/
theorem missing_json_entry_silent :
    zipFind zipNoJson analysisEntryName = none ∧
    handleZipUpload initialState zipNoJson = (initialState, []) :=
  ⟨rfl, rfl⟩

/-- Claim C7 as amended: a malformed JSON entry is reported with the failure
notice and leaves the store unchanged; a missing JSON entry leaves the
store unchanged but shows no notice; and a JSON entry that names an absent
video entry still applies the decoded text, drawing, annotation and clip
state, loads no video, and shows the distinct missing-video notice. -/
theorem zip_load_error_handling (s : AppState) (z : Zip) (j : Json)
    (data : AnalysisData) (name : String) :
    (zipFind z analysisEntryName = none → handleZipUpload s z = (s, [])) ∧
    (zipFind z analysisEntryName = some ZContent.badJson →
      handleZipUpload s z = (s, [failAlert])) ∧
    (zipFind z analysisEntryName = some (ZContent.json j) →
      decodeAnalysisData j = some data →
      data.primaryVideoFileName = some name → name ≠ "" →
      zipFind z name = none →
      handleZipUpload s z =
        ({ s with notes := data.notes, drawings := data.drawings,
                  annotations := data.annotations, clips := data.clips },
         [missingVideoAlert])) := by
  refine ⟨?_, ?_, ?_⟩
  · intro h1
    simp [handleZipUpload, h1]
  · intro h1
    simp [handleZipUpload, h1]
  · intro h1 h2 h3 h4 h5
    simp [handleZipUpload, h1, h2, h3, h4, h5]

/-- Claim C7 witness: the three amended branches evaluated at concrete
archives. -/
theorem zip_load_error_handling_witness :
    (handleZipUpload initialState zipNoJson = (initialState, [])) ∧
    (handleZipUpload initialState zipBadJson = (initialState, [failAlert])) ∧
    (handleZipUpload initialState zipMissingVideo =
      ({ initialState with
          notes := c7Data.notes, drawings := c7Data.drawings,
          annotations := c7Data.annotations, clips := c7Data.clips },
       [missingVideoAlert])) :=
  ⟨(zip_load_error_handling initialState zipNoJson Json.null c7Data "x").1 rfl,
   (zip_load_error_handling initialState zipBadJson Json.null c7Data "x").2.1 rfl,
   (zip_load_error_handling initialState zipMissingVideo
      (encodeAnalysisData c7Data) c7Data "v.mp4").2.2 rfl rfl rfl
      (by decide) rfl⟩

/-- Claim C8 counterexample: capturing at time 9.999 of a 10-second video
yields a clip whose stored duration is 0 while endTime - startTime is
1/1000, so the stored duration is not exactly the difference. -/
theorem clip_duration_not_exact :
    (let r := handleAddAnnotation captureState 0 0 (9999/1000) (some "L") "i1"
     r.1.clips.map (fun c => c.duration) = [0] ∧
     r.1.clips.map (fun c => c.endTime - c.startTime) = [1/1000]) ∧
    (0 : ℚ) ≠ 1/1000 := by
  have hL : ¬("L" = "") := by decide
  refine ⟨⟨?_, ?_⟩, by norm_num⟩
  · norm_num [ handleAddAnnotation, captureState, initialState, jsMin, toFixed2, hL]
  · norm_num [ handleAddAnnotation, captureState, initialState, jsMin, hL]

/-- Claim C8 as amended: the stored duration of a clip created by point-mode
capture equals endTime - startTime rounded to two decimal places (the JS
toFixed(2) of the exact difference), not always the exact difference. -/
theorem clip_duration_is_rounded_difference (s : AppState) (x y time : ℚ)
    (text newId : String) (h : text ≠ "") :
    let r := handleAddAnnotation s x y time (some text) newId
    let c : Clip :=
      { id := newId, name := text, startTime := time,
        endTime := jsMin (time + 2) s.duration,
        duration := toFixed2 (jsMin (time + 2) s.duration - time),
        speed := 1/2, x := x, y := y }
    r.1.clips = s.clips ++ [c] ∧
    c.duration = toFixed2 (c.endTime - c.startTime) := by
  simp [ handleAddAnnotation, h]

/-- Claim C8 witness: the amended statement at the spec scenario, capture at
9.5 seconds of a 10-second video. -/
theorem clip_duration_is_rounded_difference_witness :
    ("P" ≠ "") ∧
    (let r := handleAddAnnotation captureState 0 0 (19/2) (some "P") "i2"
     let c : Clip :=
       { id := "i2", name := "P", startTime := 19/2,
         endTime := jsMin (19/2 + 2) captureState.duration,
         duration := toFixed2 (jsMin (19/2 + 2) captureState.duration - 19/2),
         speed := 1/2, x := 0, y := 0 }
     r.1.clips = captureState.clips ++ [c] ∧
     c.duration = toFixed2 (c.endTime - c.startTime)) :=
  ⟨by decide, clip_duration_is_rounded_difference captureState 0 0 (19/2)
    "P" "i2" (by decide)⟩

/-- Claim C9: a dismissed label prompt or an empty label aborts the
point-mode capture entirely: no annotation, no clip, no other state change
and no alert. -/
theorem aborted_capture_is_noop (s : AppState) (x y time : ℚ)
    (newId : String) (label : Option String)
    (h : label = none ∨ label = some "") :
    handleAddAnnotation s x y time label newId = (s, []) := by
  rcases h with h | h <;> subst h <;> simp [ handleAddAnnotation]

/-- Claim C9 witness: a dismissed prompt at a concrete state. -/
theorem aborted_capture_is_noop_witness :
    ((none : Option String) = none ∨ (none : Option String) = some "") ∧
    handleAddAnnotation sampleState 0 0 1 none "i9" = (sampleState, []) :=
  ⟨Or.inl rfl, aborted_capture_is_noop sampleState 0 0 1 "i9" none (Or.inl rfl)⟩

/-- Claim C10: deleting a clip whose id is not the active one removes
exactly the clips bearing that id (a filter on the collection) and leaves
the annotations, drawings, notes, active-clip reference, playback rate,
playing state, pending timer, seek request and loaded video untouched; the
only emitted action is the removal. -/
theorem delete_inactive_clip_frame (s : AppState) (id : String)
    (h : s.activeClipId ≠ some id) :
    let r := deleteClip s id
    r.1.clips = s.clips.filter (fun c => c.id != id) ∧
    r.1.annotations = s.annotations ∧ r.1.drawings = s.drawings ∧
    r.1.notes = s.notes ∧ r.1.activeClipId = s.activeClipId ∧
    r.1.playbackRate = s.playbackRate ∧ r.1.isPlaying = s.isPlaying ∧
    r.1.pendingTimer = s.pendingTimer ∧ r.1.seekTimestamp = s.seekTimestamp ∧
    r.1.videoFile = s.videoFile ∧
    r.2 = [UIAction.removeClip id] := by
  simp [deleteClip, h]

/-- Claim C10 witness: deleting the inactive clip A while B is active. -/
theorem delete_inactive_clip_frame_witness :
    (playState.activeClipId ≠ some "a") ∧
    (let r := deleteClip playState "a"
     r.1.clips = playState.clips.filter (fun c => c.id != "a") ∧
     r.1.annotations = playState.annotations ∧ r.1.drawings = playState.drawings ∧
     r.1.notes = playState.notes ∧ r.1.activeClipId = playState.activeClipId ∧
     r.1.playbackRate = playState.playbackRate ∧ r.1.isPlaying = playState.isPlaying ∧
     r.1.pendingTimer = playState.pendingTimer ∧
     r.1.seekTimestamp = playState.seekTimestamp ∧
     r.1.videoFile = playState.videoFile ∧
     r.2 = [UIAction.removeClip "a"]) :=
  ⟨by decide, delete_inactive_clip_frame playState "a" (by decide)⟩

end BioMech
